import Mathlib

/-!
A shallow embedding of the VS Code extension `pylance-workspace-folder-scope`
(source file `src/out/extension.js`).  The extension counts Python files per
workspace folder, compares the count to a threshold, and reconciles the
folder-scoped `python.analysis.include` / `python.analysis.exclude` settings
accordingly, snapshotting the pre-change values so that `deactivate` can
restore them.  Machine-level details of the host API are modelled as explicit
state (`St`); configuration values that JavaScript receives dynamically are
modelled by `JsVal`.
-/

namespace PFS

/-- JavaScript `s.endsWith(t)`, written over the character list so that the
kernel can evaluate it (when `t` is longer than `s` the dropped list keeps its
length and the comparison fails). -/
def strEndsWith (s t : String) : Bool :=
  s.data.drop (s.data.length - t.data.length) == t.data

/-- JavaScript `s.startsWith(t)`, over the character list. -/
def strStartsWith (s t : String) : Bool :=
  s.data.take t.data.length == t.data

/-- JavaScript `s.trim()`, over the character list (the entries the extension
handles are ASCII, so ASCII whitespace suffices). -/
def strTrim (s : String) : String :=
  ⟨((s.data.dropWhile Char.isWhitespace).reverse.dropWhile Char.isWhitespace).reverse⟩

/-- JavaScript `s.slice(0, -n)`, over the character list. -/
def strDropRight (s : String) (n : Nat) : String :=
  ⟨s.data.take (s.data.length - n)⟩

/-- Character search over a string, used for the wildcard regex test. -/
def strAny (s : String) (p : Char → Bool) : Bool :=
  s.data.any p

/-- Emptiness test over the character list. -/
def strIsEmpty (s : String) : Bool :=
  s.data.isEmpty

/-- A JavaScript-style dynamic value, as far as the configuration reading in
the extension can observe one: the host settings store may hand back any of
these for a configuration key. -/
inductive JsVal where
  | undef
  | null
  | bool (b : Bool)
  | num (n : Int)
  | str (s : String)
  | arr (xs : List JsVal)

/-- JavaScript truthiness for the values modelled by `JsVal`. -/
def JsVal.truthy : JsVal → Bool
  | .undef => false
  | .null => false
  | .bool b => b
  | .num n => n != 0
  | .str s => !(strIsEmpty s)
  | .arr _ => true

/-- `for (const raw of v || [])` from the source: a falsy value is replaced by
the empty array; an array iterates its elements; a string iterates its
characters (each as a one-character string); any other truthy value is not
iterable, so the loop throws (modelled by `.error`). -/
def jsIterEntries (v : JsVal) : Except Unit (List JsVal) :=
  match (if v.truthy then v else JsVal.arr []) with
  | .arr xs => .ok xs
  | .str s => .ok (s.data.map fun c => JsVal.str (String.mk [c]))
  | _ => .error ()

/-- `new Set(excludeDirs)` from `applyForFolder`: `null`/`undefined` give an
empty set, a string iterates its characters, an array collects its members,
and any other value throws `TypeError`.  Only string members can ever compare
equal to an entry name in `skipDirs.has(e.name)`, so non-string members of an
array are dropped. -/
def jsToNameSet : JsVal → Except Unit (List String)
  | .undef => .ok []
  | .null => .ok []
  | .str s => .ok (s.data.map fun c => String.mk [c])
  | .arr xs => .ok (xs.filterMap fun v => match v with | .str s => some s | _ => none)
  | _ => .error ()

/-- A filesystem tree entry.  `readable = false` on a directory models
`readdirSync` throwing for it (permissions, transient deletion): the walker
then contributes nothing for that subtree and continues. -/
inductive FSEntry where
  | file (nm : String)
  | dir (nm : String) (readable : Bool) (children : List FSEntry)

mutual

/-- Contribution of a single directory entry to the walk of `countPyFiles`
(`src/out/extension.js` lines 35-57): a file counts when its name ends in
`.py`; a directory whose base name is in `skipDirs` is pruned without being
descended into; an unreadable directory contributes nothing; any other
directory is walked. -/
def countEntry (skipDirs : List String) : FSEntry → Nat
  | .file nm => if strEndsWith nm ".py" then 1 else 0
  | .dir nm readable children =>
      if skipDirs.contains nm then 0
      else if readable then countEntries skipDirs children
      else 0

/-- Total contribution of a directory listing to `countPyFiles`. -/
def countEntries (skipDirs : List String) : List FSEntry → Nat
  | [] => 0
  | e :: rest => countEntry skipDirs e + countEntries skipDirs rest

end

/-- `countPyFiles(root, skipDirs)` from the source.  The root itself is pushed
unconditionally (its own name is never tested against `skipDirs`); reading the
root may fail (`readable = false`, or the root is a plain file), in which case
the count is `0`. -/
def countPyFiles (root : FSEntry) (skipDirs : List String) : Nat :=
  match root with
  | .file _ => 0
  | .dir _ readable children => if readable then countEntries skipDirs children else 0

/-- The test `/[*?\[]/.test(s)` from `toIncludeGlobs`. -/
def hasWildcard (s : String) : Bool :=
  strAny s fun c => c == '*' || c == '?' || c == '['

/-- The test `/\.py(i|d)?$/.test(s) || /\/\*\*\/\*\.py(i|d)?$/.test(s)` from
`toIncludeGlobs`; the second alternative is subsumed by the first, so the test
is exactly: the string ends with `.py`, `.pyi` or `.pyd`. -/
def looksLikeFileGlob (s : String) : Bool :=
  strEndsWith s ".py" || strEndsWith s ".pyi" || strEndsWith s ".pyd"

/-- The per-entry body of the loop in `toIncludeGlobs` (`extension.js` lines
64-83): skip blank entries; normalise a leading `./`; pass wildcard or
file-glob entries through unchanged; otherwise treat the entry as a directory
root and append `/**/*.py`. -/
def includeGlobOf (raw : String) : Option String :=
  if strIsEmpty (strTrim raw) then none
  else
    let s := strTrim raw
    let s := if !(strStartsWith s "./") && !(strStartsWith s "/") then "./" ++ s else s
    if hasWildcard s || looksLikeFileGlob s then some s
    else
      let s := if strEndsWith s "/" then strDropRight s 1 else s
      some (s ++ "/**/*.py")

/-- `toIncludeGlobs(folderRelEntries)` (`extension.js` lines 59-86).
Non-string entries are skipped; if no usable entry remains the catch-all
`./**/*.py` is returned. -/
def toIncludeGlobs (folderRelEntries : JsVal) : Except Unit (List String) := do
  let entries ← jsIterEntries folderRelEntries
  let out := entries.filterMap fun raw =>
    match raw with
    | .str s => includeGlobOf s
    | _ => none
  return if out.isEmpty then ["./**/*.py"] else out

/-- `toExcludeGlobs(dirNames)` (`extension.js` lines 88-97): each non-blank
string entry becomes the pattern `**/<name>/**`. -/
def toExcludeGlobs (dirNames : JsVal) : Except Unit (List String) := do
  let entries ← jsIterEntries dirNames
  return entries.filterMap fun raw =>
    match raw with
    | .str s => if strIsEmpty (strTrim s) then none else some ("**/" ++ strTrim s ++ "/**")
    | _ => none

/-- `arrayShallowEqual(a, b)` (`extension.js` lines 27-33).  Settings values
are modelled as `Option (List String)`: `none` is JavaScript `undefined`
(the key is unset), `some` is an array.  Both `undefined` gives `true`; a
non-array on either side gives `false`; two arrays compare by length and
elementwise equality. -/
def arrayShallowEqual : Option (List String) → Option (List String) → Bool
  | none, none => true
  | some a, some b => a == b
  | _, _ => false

/-- The classification outcome (`action` in `applyForFolder`). -/
inductive Action where
  | enable
  | disable
deriving DecidableEq

/-- The decision rule of `applyForFolder` (`extension.js` lines 205-215):
`count > limit` disables, anything at or under the limit enables. -/
def classifyAction (count limit : Nat) : Action :=
  if count > limit then .disable else .enable

/-- Folder-scoped `python.analysis.*` settings: the `include` and `exclude`
keys, each either unset (`none`) or an array. -/
structure PyCfg where
  incl : Option (List String)
  excl : Option (List String)
deriving DecidableEq

/-- One entry of the persistent `prevSettings` map: the pre-modification
`include`/`exclude` values captured for a folder (`prevMap[key] =
{ include: currentInclude, exclude: currentExclude }`). -/
structure Snapshot where
  incl : Option (List String)
  excl : Option (List String)
deriving DecidableEq

/-- A workspace folder: its identity key (`folder.uri.toString()`), display
name, and the directory tree rooted at `folder.uri.fsPath`. -/
structure Folder where
  key : String
  name : String
  tree : FSEntry

/-- The observable state the extension reads and writes: folder-scoped
settings, the durable snapshot map (`globalState`), the in-memory toast
throttle map `lastToastAt`, the list of toast messages shown so far, and the
shared status-bar item / diagnostic collection (each `none` until created). -/
structure St where
  pycfg : String → PyCfg
  prevMap : List (String × Snapshot)
  lastToastAt : List (String × Int)
  toastLog : List String
  statusItem : Option (String × String)
  diag : Option (List (String × String))

/-- `prevMap[key]` lookup. -/
def lookupPrev (st : St) (key : String) : Option Snapshot :=
  (st.prevMap.find? fun p => p.1 == key).map fun p => p.2

/-- `prevMap[key] = snap` followed by `setPrevMap` (only ever called when the
key is absent). -/
def insertPrev (st : St) (key : String) (snap : Snapshot) : St :=
  { st with prevMap := (key, snap) :: st.prevMap }

/-- `delete prevMap[key]` followed by `setPrevMap`. -/
def erasePrev (st : St) (key : String) : St :=
  { st with prevMap := st.prevMap.filter fun p => p.1 != key }

/-- `pythonCfg.update('analysis.include', v, ConfigurationTarget.WorkspaceFolder)`. -/
def updateIncl (st : St) (key : String) (v : Option (List String)) : St :=
  { st with pycfg := fun k => if k == key then { st.pycfg k with incl := v } else st.pycfg k }

/-- `pythonCfg.update('analysis.exclude', v, ConfigurationTarget.WorkspaceFolder)`. -/
def updateExcl (st : St) (key : String) (v : Option (List String)) : St :=
  { st with pycfg := fun k => if k == key then { st.pycfg k with excl := v } else st.pycfg k }

/-- `lastToastAt.get(key)`. -/
def lookupToast (st : St) (key : String) : Option Int :=
  (st.lastToastAt.find? fun p => p.1 == key).map fun p => p.2

/-- The toast-related options handed from `applyForFolder` to `notify`. -/
structure ToastOpts where
  showEnableToast : Bool
  showDisableToast : Bool
  suppressMins : Int

/-- `notify(folder, action, count, limit, mode, opts)` (`extension.js` lines
257-300).  The JavaScript wraps the folder name in single quotes inside the
message texts; the quotes are elided here.  `now` models `Date.now()`. -/
def notify (folder : Folder) (action : Action) (count limit : Nat) (mode : String)
    (opts : ToastOpts) (now : Int) (st : St) : St :=
  let textEnable := "Pylance enabled for " ++ folder.name ++
    ". Scope: include Python in configured directories. Analysing " ++ toString count ++
    " files (limit " ++ toString limit ++ ")."
  let textDisable := "Pylance disabled for " ++ folder.name ++ ". " ++ toString count ++
    " Python files exceed the " ++ toString limit ++ " limit."
  if mode == "none" then st
  else if mode == "statusbar" then
    match st.statusItem with
    | none => st
    | some _ =>
      match action with
      | .disable =>
          { st with statusItem := some ("$(warning) Pylance disabled: " ++ toString count ++
              " > " ++ toString limit, textDisable ++ "\nClick to open settings.") }
      | .enable =>
          { st with statusItem := some ("$(check) Pylance enabled (" ++ toString count ++
              "/" ++ toString limit ++ ")", textEnable ++ "\nClick to open settings.") }
  else if mode == "problems" then
    match st.diag with
    | none => st
    | some entries =>
      let settingsUri := folder.key ++ "/.vscode/settings.json"
      let message := match action with | .disable => textDisable | .enable => textEnable
      { st with diag := some ((settingsUri, message) ::
          entries.filter fun p => p.1 != settingsUri) }
  else
    let key := folder.key
    let last := (lookupToast st key).getD 0
    let minGapMs := (max 0 opts.suppressMins) * 60 * 1000
    if now - last < minGapMs then st
    else
      match action with
      | .disable =>
        if opts.showDisableToast then
          { st with toastLog := st.toastLog ++ [textDisable],
                    lastToastAt := (key, now) :: st.lastToastAt }
        else st
      | .enable =>
        if opts.showEnableToast then
          { st with toastLog := st.toastLog ++ [textEnable],
                    lastToastAt := (key, now) :: st.lastToastAt }
        else st

/-- The configuration values read at the start of a classification pass
(results of `settings.get(...)`, with the documented defaults applied by the
host when the key is absent).  `includeDirs` and `excludeDirs` are kept as
dynamic values because the store may hand back malformed data. -/
structure Config where
  enable : Bool
  maxFiles : Nat
  includeDirs : JsVal
  excludeDirs : JsVal
  notificationMode : String
  showEnableToast : Bool
  showDisableToast : Bool
  toastSuppressForMinutes : Int

/-- Failure oracle for the awaited I/O calls inside one classification pass:
either no call fails, or the first `globalState.update` (snapshot persist)
throws, or the `analysis.include` settings write throws, or the
`analysis.exclude` settings write throws.  A thrown error is caught by the
`try/catch` wrapping `applyForFolder`, aborting the pass for that folder. -/
inductive WriteFail where
  | noFail
  | failSnapshot
  | failInclude
  | failExclude
deriving BEq, DecidableEq

instance : LawfulBEq WriteFail where
  eq_of_beq := by
    intro a b h
    cases a <;> cases b <;> first | rfl | exact Bool.noConfusion h
  rfl := by
    intro a
    cases a <;> rfl

/-- Where a classification pass aborted, if it did: while coercing a
malformed configuration value (a `TypeError` from `new Set(...)` or a
`for`-`of` loop), while persisting the snapshot, or during one of the two
settings writes. -/
inductive AbortPoint where
  | coercion
  | snapshotWrite
  | includeWrite
  | excludeWrite
deriving DecidableEq

/-- Observable record of one classification pass: where it aborted (if it
did), the computed change flags, the classification action (once computed),
and how many settings writes were performed. -/
structure PassLog where
  abortReason : Option AbortPoint
  includeChanged : Bool
  excludeChanged : Bool
  action : Option Action
  writes : Nat
deriving DecidableEq

/-- `includeChanged` (`extension.js` lines 220-222). -/
def includeChangedB (currentInclude desiredInclude : Option (List String)) : Bool :=
  (desiredInclude.isNone && currentInclude.isSome) ||
  (desiredInclude.isSome && !arrayShallowEqual currentInclude desiredInclude)

/-- `excludeChanged` (`extension.js` lines 224-226); `desiredExclude.isSome`
is `Array.isArray(desiredExclude)`. -/
def excludeChangedB (currentExclude desiredExclude : Option (List String)) : Bool :=
  (desiredExclude.isSome && !arrayShallowEqual currentExclude desiredExclude) ||
  (desiredExclude.isNone && currentExclude.isSome)

/-- The branch of `applyForFolder` computing the desired settings
(`extension.js` lines 205-215): over the limit removes `include` and excludes
everything; at or under the limit translates the configured directory lists,
either of which may throw on a malformed truthy non-iterable value. -/
def computeDesired (cfg : Config) (count : Nat) :
    Except Unit (Option (List String) × Option (List String) × Action) :=
  match classifyAction count cfg.maxFiles with
  | .disable => .ok (none, some ["**"], .disable)
  | .enable =>
    match toIncludeGlobs cfg.includeDirs, toExcludeGlobs cfg.excludeDirs with
    | .ok inc, .ok exc => .ok (some inc, some exc, .enable)
    | _, _ => .error ()

/-- The settings-reconciliation tail of `applyForFolder` (`extension.js`
lines 217-249): read current values, compute the change flags, capture the
snapshot first if a change is due and none exists yet, then write only the
fields that differ.  `wf` injects an I/O failure at one of the awaited calls;
the state returned on a failure is exactly the state at the throw point. -/
def reconcile (folder : Folder) (desiredInclude desiredExclude : Option (List String))
    (wf : WriteFail) (st : St) : St × PassLog :=
  let current := st.pycfg folder.key
  let includeChanged := includeChangedB current.incl desiredInclude
  let excludeChanged := excludeChangedB current.excl desiredExclude
  let key := folder.key
  if (includeChanged || excludeChanged) && (lookupPrev st key).isNone && (wf == .failSnapshot) then
    (st, ⟨some .snapshotWrite, includeChanged, excludeChanged, none, 0⟩)
  else
    let st1 := if (includeChanged || excludeChanged) && (lookupPrev st key).isNone then
      insertPrev st key ⟨current.incl, current.excl⟩ else st
    if includeChanged && (wf == .failInclude) then
      (st1, ⟨some .includeWrite, includeChanged, excludeChanged, none, 0⟩)
    else
      let st2 := if includeChanged then updateIncl st1 key desiredInclude else st1
      let w1 : Nat := if includeChanged then 1 else 0
      if excludeChanged && (wf == .failExclude) then
        (st2, ⟨some .excludeWrite, includeChanged, excludeChanged, none, w1⟩)
      else
        let st3 := if excludeChanged then updateExcl st2 key desiredExclude else st2
        (st3, ⟨none, includeChanged, excludeChanged, none,
          w1 + if excludeChanged then 1 else 0⟩)

/-- One classification pass, `applyForFolder(folder)` (`extension.js` lines
181-255): bail out if disabled; build the exclusion name set (may throw on
malformed data); count the Python files; compute the desired settings;
reconcile; and finally notify when nothing threw. -/
def applyForFolder (cfg : Config) (folder : Folder) (now : Int) (wf : WriteFail)
    (st : St) : St × PassLog :=
  if !cfg.enable then (st, ⟨none, false, false, none, 0⟩)
  else
    match jsToNameSet cfg.excludeDirs with
    | .error _ => (st, ⟨some .coercion, false, false, none, 0⟩)
    | .ok skipNames =>
      let count := countPyFiles folder.tree skipNames
      match computeDesired cfg count with
      | .error _ => (st, ⟨some .coercion, false, false, none, 0⟩)
      | .ok (desiredInclude, desiredExclude, action) =>
        let r := reconcile folder desiredInclude desiredExclude wf st
        match r.2.abortReason with
        | some _ => (r.1, { r.2 with action := some action })
        | none =>
          (notify folder action count cfg.maxFiles cfg.notificationMode
            ⟨cfg.showEnableToast, cfg.showDisableToast, cfg.toastSuppressForMinutes⟩ now r.1,
           { r.2 with action := some action })

/-- The per-folder body of the restore loop in `deactivate` (`extension.js`
lines 314-327): a folder without a snapshot is skipped; otherwise both
recorded values are written back (the snapshot object always carries both
keys, so `hasOwnProperty` holds for each) and the entry is deleted. -/
def restoreFolder (st : St) (f : Folder) : St :=
  match lookupPrev st f.key with
  | none => st
  | some prev =>
    let st1 := updateIncl st f.key prev.incl
    let st2 := updateExcl st1 f.key prev.excl
    erasePrev st2 f.key

/-- `deactivate()` (`extension.js` lines 305-336): restore every workspace
folder that has a snapshot entry, then clear the diagnostic collection and
blank the status-bar text. -/
def deactivate (folders : List Folder) (st : St) : St :=
  let st1 := folders.foldl restoreFolder st
  let st2 := match st1.diag with
    | none => st1
    | some _ => { st1 with diag := some [] }
  match st2.statusItem with
  | none => st2
  | some p => { st2 with statusItem := some ("", p.2) }

/-- A sequence of classification passes within one session, each with its own
configuration, folder, wall-clock time and I/O failure behaviour. -/
def runPasses (passes : List (Config × Folder × Int × WriteFail)) (st : St) : St :=
  passes.foldl (fun s p => (applyForFolder p.1 p.2.1 p.2.2.1 p.2.2.2 s).1) st

/-- The state of a fresh session: no folder settings, no snapshots, no toast
history, no UI surfaces created. -/
def emptySt : St :=
  ⟨fun _ => ⟨none, none⟩, [], [], [], none, none⟩

mutual

/-- Two trees agree everywhere the walker of `countPyFiles` can look: they
are identical except that a directory whose base name is in `skip` may carry
arbitrary (and arbitrarily different) contents and readability on the two
sides, since the walker prunes it without descending. -/
inductive SameOutsideExcluded (skip : List String) : FSEntry → FSEntry → Prop where
  | file (nm : String) : SameOutsideExcluded skip (.file nm) (.file nm)
  | dirSkip (nm : String) (r r' : Bool) (ch ch' : List FSEntry)
      (h : skip.contains nm = true) :
      SameOutsideExcluded skip (.dir nm r ch) (.dir nm r' ch')
  | dirKeep (nm : String) (r : Bool) (ch ch' : List FSEntry)
      (h : SameOutsideExcludedL skip ch ch') :
      SameOutsideExcluded skip (.dir nm r ch) (.dir nm r ch')

/-- Listwise version of `SameOutsideExcluded`. -/
inductive SameOutsideExcludedL (skip : List String) : List FSEntry → List FSEntry → Prop where
  | nil : SameOutsideExcludedL skip [] []
  | cons {e e' : FSEntry} {es es' : List FSEntry}
      (h1 : SameOutsideExcluded skip e e') (h2 : SameOutsideExcludedL skip es es') :
      SameOutsideExcludedL skip (e :: es) (e' :: es')

end

/-! ### Helper lemmas -/

theorem arrayShallowEqual_eq_true {a b : Option (List String)} :
    arrayShallowEqual a b = true ↔ a = b := by
  cases a <;> cases b <;> simp [arrayShallowEqual]

theorem includeChangedB_eq_false {c d : Option (List String)} :
    includeChangedB c d = false ↔ c = d := by
  cases d <;> cases c <;>
    simp [includeChangedB, arrayShallowEqual]

theorem excludeChangedB_eq_false {c d : Option (List String)} :
    excludeChangedB c d = false ↔ c = d := by
  cases d <;> cases c <;>
    simp [excludeChangedB, arrayShallowEqual]

theorem lookupPrev_insertPrev_self (st : St) (k : String) (v : Snapshot) :
    lookupPrev (insertPrev st k v) k = some v := by
  simp [lookupPrev, insertPrev, List.find?]

theorem lookupPrev_insertPrev_ne (st : St) {k k' : String} (v : Snapshot) (h : k' ≠ k) :
    lookupPrev (insertPrev st k v) k' = lookupPrev st k' := by
  have hne : (k == k') = false := beq_eq_false_iff_ne.mpr (Ne.symm h)
  simp [lookupPrev, insertPrev, List.find?, hne]

theorem lookupPrev_erasePrev_self (st : St) (k : String) :
    lookupPrev (erasePrev st k) k = none := by
  have hfind : ((st.prevMap.filter fun p => p.1 != k).find? fun p => p.1 == k) = none := by
    rw [List.find?_eq_none]
    intro x hx
    have hmem := List.mem_filter.mp hx
    simpa using hmem.2
  simp [lookupPrev, erasePrev, hfind]

theorem lookupPrev_updateIncl (st : St) (k k' : String) (v : Option (List String)) :
    lookupPrev (updateIncl st k v) k' = lookupPrev st k' := rfl

theorem lookupPrev_updateExcl (st : St) (k k' : String) (v : Option (List String)) :
    lookupPrev (updateExcl st k v) k' = lookupPrev st k' := rfl

theorem updateIncl_pycfg_self (st : St) (k : String) (v : Option (List String)) :
    (updateIncl st k v).pycfg k = { st.pycfg k with incl := v } := by
  simp [updateIncl]

theorem updateExcl_pycfg_self (st : St) (k : String) (v : Option (List String)) :
    (updateExcl st k v).pycfg k = { st.pycfg k with excl := v } := by
  simp [updateExcl]

theorem updateIncl_pycfg_ne (st : St) {k k' : String} (v : Option (List String)) (h : k' ≠ k) :
    (updateIncl st k v).pycfg k' = st.pycfg k' := by
  simp [updateIncl, h]

theorem updateExcl_pycfg_ne (st : St) {k k' : String} (v : Option (List String)) (h : k' ≠ k) :
    (updateExcl st k v).pycfg k' = st.pycfg k' := by
  simp [updateExcl, h]

theorem notify_pycfg (folder : Folder) (action : Action) (count limit : Nat) (mode : String)
    (opts : ToastOpts) (now : Int) (st : St) :
    (notify folder action count limit mode opts now st).pycfg = st.pycfg := by
  simp only [notify]
  repeat' split
  all_goals rfl

theorem notify_prevMap (folder : Folder) (action : Action) (count limit : Nat) (mode : String)
    (opts : ToastOpts) (now : Int) (st : St) :
    (notify folder action count limit mode opts now st).prevMap = st.prevMap := by
  simp only [notify]
  repeat' split
  all_goals rfl

theorem insertPrev_pycfg (st : St) (k : String) (v : Snapshot) :
    (insertPrev st k v).pycfg = st.pycfg := rfl

theorem fst_ite (c : Prop) [Decidable c] (a b : St × PassLog) :
    (if c then a else b).1 = if c then a.1 else b.1 := by
  split <;> rfl

theorem pycfg_ite (c : Prop) [Decidable c] (a b : St) (k : String) :
    (if c then a else b).pycfg k = if c then a.pycfg k else b.pycfg k := by
  split <;> rfl

theorem lookupPrev_ite (c : Prop) [Decidable c] (a b : St) (k : String) :
    lookupPrev (if c then a else b) k = if c then lookupPrev a k else lookupPrev b k := by
  split <;> rfl

theorem toastLog_ite (c : Prop) [Decidable c] (a b : St) :
    (if c then a else b).toastLog = if c then a.toastLog else b.toastLog := by
  split <;> rfl

theorem ite_insertPrev_pycfg (c : Prop) [Decidable c] (st : St) (k : String) (v : Snapshot) :
    (if c then insertPrev st k v else st).pycfg = st.pycfg := by
  split <;> rfl

theorem updateIncl_toastLog (st : St) (k : String) (v : Option (List String)) :
    (updateIncl st k v).toastLog = st.toastLog := rfl

theorem updateExcl_toastLog (st : St) (k : String) (v : Option (List String)) :
    (updateExcl st k v).toastLog = st.toastLog := rfl

theorem insertPrev_toastLog (st : St) (k : String) (v : Snapshot) :
    (insertPrev st k v).toastLog = st.toastLog := rfl

theorem reconcile_noop (folder : Folder) (di de : Option (List String)) (wf : WriteFail)
    (st : St)
    (hic : includeChangedB (st.pycfg folder.key).incl di = false)
    (hec : excludeChangedB (st.pycfg folder.key).excl de = false) :
    reconcile folder di de wf st = (st, ⟨none, false, false, none, 0⟩) := by
  simp [reconcile, hic, hec]

theorem reconcile_flags (folder : Folder) (di de : Option (List String)) (wf : WriteFail)
    (st : St) :
    (reconcile folder di de wf st).2.includeChanged =
        includeChangedB (st.pycfg folder.key).incl di ∧
      (reconcile folder di de wf st).2.excludeChanged =
        excludeChangedB (st.pycfg folder.key).excl de := by
  simp only [reconcile]
  repeat' split
  all_goals exact ⟨rfl, rfl⟩

theorem reconcile_noFail_abortReason (folder : Folder) (di de : Option (List String))
    (st : St) :
    (reconcile folder di de .noFail st).2.abortReason = none := by
  have h1 : (WriteFail.noFail == WriteFail.failSnapshot) = false := rfl
  have h2 : (WriteFail.noFail == WriteFail.failInclude) = false := rfl
  have h3 : (WriteFail.noFail == WriteFail.failExclude) = false := rfl
  simp [reconcile, h1, h2, h3]

theorem reconcile_noFail_pycfg_self (folder : Folder) (di de : Option (List String))
    (st : St) :
    (reconcile folder di de .noFail st).1.pycfg folder.key = ⟨di, de⟩ := by
  have h1 : (WriteFail.noFail == WriteFail.failSnapshot) = false := rfl
  have h2 : (WriteFail.noFail == WriteFail.failInclude) = false := rfl
  have h3 : (WriteFail.noFail == WriteFail.failExclude) = false := rfl
  by_cases hic : includeChangedB (st.pycfg folder.key).incl di = true
  <;> by_cases hec : excludeChangedB (st.pycfg folder.key).excl de = true
  · simp only [reconcile, h1, h2, h3, hic, hec, Bool.and_false, Bool.false_eq_true, if_false,
      Bool.true_and, Bool.or_self, if_true]
    rw [updateExcl_pycfg_self, updateIncl_pycfg_self, ite_insertPrev_pycfg]
  · rw [Bool.not_eq_true] at hec
    have hde := excludeChangedB_eq_false.mp hec
    simp only [reconcile, h1, h2, h3, hic, hec, Bool.and_false, Bool.false_eq_true, if_false,
      Bool.true_and, Bool.true_or, if_true]
    rw [updateIncl_pycfg_self, ite_insertPrev_pycfg, ← hde]
  · rw [Bool.not_eq_true] at hic
    have hdi := includeChangedB_eq_false.mp hic
    simp only [reconcile, h1, h2, h3, hic, hec, Bool.and_false, Bool.false_eq_true, if_false,
      Bool.false_and, Bool.false_or, Bool.true_and, if_true]
    rw [updateExcl_pycfg_self, ite_insertPrev_pycfg, ← hdi]
  · rw [Bool.not_eq_true] at hic hec
    have hdi := includeChangedB_eq_false.mp hic
    have hde := excludeChangedB_eq_false.mp hec
    simp only [reconcile, h1, h2, h3, hic, hec, Bool.and_false, Bool.false_eq_true, if_false,
      Bool.false_and, Bool.or_self, Bool.false_or]
    rw [← hdi, ← hde]

theorem reconcile_pycfg_ne (folder : Folder) (di de : Option (List String)) (wf : WriteFail)
    (st : St) {k : String} (h : k ≠ folder.key) :
    (reconcile folder di de wf st).1.pycfg k = st.pycfg k := by
  simp [reconcile, fst_ite, pycfg_ite, updateIncl_pycfg_ne, updateExcl_pycfg_ne,
    insertPrev_pycfg, h, ite_self]

theorem reconcile_prev_ne (folder : Folder) (di de : Option (List String)) (wf : WriteFail)
    (st : St) {k : String} (h : k ≠ folder.key) :
    lookupPrev (reconcile folder di de wf st).1 k = lookupPrev st k := by
  simp [reconcile, fst_ite, lookupPrev_ite, lookupPrev_insertPrev_ne, lookupPrev_updateIncl,
    lookupPrev_updateExcl, h, ite_self]

theorem reconcile_prev_mono (folder : Folder) (di de : Option (List String)) (wf : WriteFail)
    (st : St) {k : String} {v : Snapshot} (h : lookupPrev st k = some v) :
    lookupPrev (reconcile folder di de wf st).1 k = some v := by
  by_cases hk : k = folder.key
  · subst hk
    simp [reconcile, fst_ite, lookupPrev_ite, lookupPrev_updateIncl, lookupPrev_updateExcl,
      h, ite_self]
  · rw [reconcile_prev_ne folder di de wf st hk]
    exact h

theorem reconcile_fresh_snapshot (folder : Folder) (di de : Option (List String))
    (wf : WriteFail) (st : St)
    (hfresh : lookupPrev st folder.key = none)
    (hch : (includeChangedB (st.pycfg folder.key).incl di ||
            excludeChangedB (st.pycfg folder.key).excl de) = true)
    (hwf : wf ≠ .failSnapshot) :
    lookupPrev (reconcile folder di de wf st).1 folder.key =
      some ⟨(st.pycfg folder.key).incl, (st.pycfg folder.key).excl⟩ := by
  have hb : (wf == WriteFail.failSnapshot) = false := by
    simp [hwf]
  simp [reconcile, hb, hch, hfresh, fst_ite, lookupPrev_ite, lookupPrev_updateIncl,
    lookupPrev_updateExcl, lookupPrev_insertPrev_self, ite_self]

theorem reconcile_toastLog (folder : Folder) (di de : Option (List String)) (wf : WriteFail)
    (st : St) :
    (reconcile folder di de wf st).1.toastLog = st.toastLog := by
  simp [reconcile, fst_ite, toastLog_ite, updateIncl_toastLog, updateExcl_toastLog,
    insertPrev_toastLog, ite_self]

theorem reconcile_write_abort (folder : Folder) (di de : Option (List String)) (wf : WriteFail)
    (st : St)
    (hfresh : lookupPrev st folder.key = none)
    (hab : (reconcile folder di de wf st).2.abortReason = some .includeWrite ∨
           (reconcile folder di de wf st).2.abortReason = some .excludeWrite) :
    lookupPrev (reconcile folder di de wf st).1 folder.key =
      some ⟨(st.pycfg folder.key).incl, (st.pycfg folder.key).excl⟩ := by
  cases wf <;>
    by_cases hic : includeChangedB (st.pycfg folder.key).incl di = true <;>
    by_cases hec : excludeChangedB (st.pycfg folder.key).excl de = true <;>
    simp_all [reconcile, lookupPrev_insertPrev_self, lookupPrev_updateIncl,
      lookupPrev_updateExcl, fst_ite, lookupPrev_ite, ite_self]

mutual

theorem countEntry_congr {skip : List String} {e e' : FSEntry}
    (h : SameOutsideExcluded skip e e') : countEntry skip e = countEntry skip e' := by
  cases h with
  | file nm => rfl
  | dirSkip nm r r' ch ch' hmem =>
    have hmem' : nm ∈ skip := by simpa using hmem
    simp [countEntry, hmem']
  | dirKeep nm r ch ch' hL =>
    simp only [countEntry]
    rw [countEntries_congr hL]

theorem countEntries_congr {skip : List String} {l l' : List FSEntry}
    (h : SameOutsideExcludedL skip l l') : countEntries skip l = countEntries skip l' := by
  cases h with
  | nil => rfl
  | cons h1 h2 =>
    simp only [countEntries]
    rw [countEntry_congr h1, countEntries_congr h2]

end

theorem notify_lookupPrev (folder : Folder) (action : Action) (count limit : Nat)
    (mode : String) (opts : ToastOpts) (now : Int) (st : St) (k : String) :
    lookupPrev (notify folder action count limit mode opts now st) k = lookupPrev st k := by
  unfold lookupPrev
  rw [notify_prevMap]

theorem erasePrev_pycfg (st : St) (k : String) :
    (erasePrev st k).pycfg = st.pycfg := rfl

theorem deactivate_pycfg (fs : List Folder) (st : St) :
    (deactivate fs st).pycfg = (fs.foldl restoreFolder st).pycfg := by
  simp only [deactivate]
  repeat' split
  all_goals rfl

theorem deactivate_lookupPrev (fs : List Folder) (st : St) (k : String) :
    lookupPrev (deactivate fs st) k = lookupPrev (fs.foldl restoreFolder st) k := by
  have h : (deactivate fs st).prevMap = (fs.foldl restoreFolder st).prevMap := by
    simp only [deactivate]
    repeat' split
    all_goals rfl
  unfold lookupPrev
  rw [h]

theorem applyForFolder_disabled (cfg : Config) (folder : Folder) (now : Int) (wf : WriteFail)
    (st : St) (h : cfg.enable = false) :
    applyForFolder cfg folder now wf st = (st, ⟨none, false, false, none, 0⟩) := by
  simp [applyForFolder, h]

theorem applyForFolder_coercionSet (cfg : Config) (folder : Folder) (now : Int)
    (wf : WriteFail) (st : St) (he : cfg.enable = true)
    (h : jsToNameSet cfg.excludeDirs = .error ()) :
    applyForFolder cfg folder now wf st = (st, ⟨some .coercion, false, false, none, 0⟩) := by
  simp [applyForFolder, he, h]

theorem applyForFolder_coercionDesired (cfg : Config) (folder : Folder) (now : Int)
    (wf : WriteFail) (st : St) {skipNames : List String} (he : cfg.enable = true)
    (hset : jsToNameSet cfg.excludeDirs = .ok skipNames)
    (hdes : computeDesired cfg (countPyFiles folder.tree skipNames) = .error ()) :
    applyForFolder cfg folder now wf st = (st, ⟨some .coercion, false, false, none, 0⟩) := by
  simp [applyForFolder, he, hset, hdes]

theorem applyForFolder_main (cfg : Config) (folder : Folder) (now : Int)
    (wf : WriteFail) (st : St) {skipNames : List String}
    {di de : Option (List String)} {act : Action} (he : cfg.enable = true)
    (hset : jsToNameSet cfg.excludeDirs = .ok skipNames)
    (hdes : computeDesired cfg (countPyFiles folder.tree skipNames) = .ok (di, de, act)) :
    applyForFolder cfg folder now wf st =
      match (reconcile folder di de wf st).2.abortReason with
      | some _ =>
          ((reconcile folder di de wf st).1,
           { (reconcile folder di de wf st).2 with action := some act })
      | none =>
          (notify folder act (countPyFiles folder.tree skipNames) cfg.maxFiles
            cfg.notificationMode
            ⟨cfg.showEnableToast, cfg.showDisableToast, cfg.toastSuppressForMinutes⟩ now
            (reconcile folder di de wf st).1,
           { (reconcile folder di de wf st).2 with action := some act }) := by
  simp [applyForFolder, he, hset, hdes]

theorem applyForFolder_main_noFail (cfg : Config) (folder : Folder) (now : Int)
    (st : St) {skipNames : List String}
    {di de : Option (List String)} {act : Action} (he : cfg.enable = true)
    (hset : jsToNameSet cfg.excludeDirs = .ok skipNames)
    (hdes : computeDesired cfg (countPyFiles folder.tree skipNames) = .ok (di, de, act)) :
    applyForFolder cfg folder now .noFail st =
      (notify folder act (countPyFiles folder.tree skipNames) cfg.maxFiles
        cfg.notificationMode
        ⟨cfg.showEnableToast, cfg.showDisableToast, cfg.toastSuppressForMinutes⟩ now
        (reconcile folder di de .noFail st).1,
       { (reconcile folder di de .noFail st).2 with action := some act }) := by
  rw [applyForFolder_main cfg folder now .noFail st he hset hdes,
    reconcile_noFail_abortReason folder di de st]

theorem restore_single_none (folder : Folder) (A : St)
    (h : lookupPrev A folder.key = none) :
    (deactivate [folder] A).pycfg folder.key = A.pycfg folder.key ∧
      lookupPrev (deactivate [folder] A) folder.key = none := by
  rw [deactivate_pycfg, deactivate_lookupPrev]
  simp [List.foldl, restoreFolder, h]

theorem restore_single_some (folder : Folder) (A : St) {prev : Snapshot}
    (h : lookupPrev A folder.key = some prev) :
    (deactivate [folder] A).pycfg folder.key = ⟨prev.incl, prev.excl⟩ ∧
      lookupPrev (deactivate [folder] A) folder.key = none := by
  rw [deactivate_pycfg, deactivate_lookupPrev]
  simp only [List.foldl, restoreFolder, h]
  constructor
  · rw [erasePrev_pycfg, updateExcl_pycfg_self, updateIncl_pycfg_self]
  · exact lookupPrev_erasePrev_self _ _

/-! ### Claim theorems -/

/-- Claim C1: for every file count and limit, `count = limit` makes the
classification pass take action `enable` (the boundary is inclusive on the
enabled side), and any `count > limit` — in particular `count = limit + 1` —
makes it take action `disable`. -/
theorem claim1_boundary_inclusive (count limit : Nat) :
    (count = limit → classifyAction count limit = .enable) ∧
    (count > limit → classifyAction count limit = .disable) := by
  constructor
  · intro h
    subst h
    simp [classifyAction]
  · intro h
    simp [classifyAction, h]

/-- Witness for C1 at the default limit `200`: a count of `200` enables and a
count of `201` disables. -/
theorem claim1_boundary_inclusive_witness :
    classifyAction 200 200 = .enable ∧ classifyAction 201 200 = .disable :=
  ⟨(claim1_boundary_inclusive 200 200).1 rfl,
   (claim1_boundary_inclusive 201 200).2 (by decide)⟩

/-- Claim C2 (evaluation at the claimed input): on `["src", "packages/*", "./"]`
the translator returns `["./src/**/*.py", "./packages/*", "./**/*.py"]` — the
wildcard entry `packages/*` is passed through unchanged by the
`hasWildcard` branch instead of being expanded to `./packages/*/**/*.py` as
the repository README and the spec state. -/
theorem claim2_toIncludeGlobs_eval :
    toIncludeGlobs (.arr [.str "src", .str "packages/*", .str "./"]) =
      .ok ["./src/**/*.py", "./packages/*", "./**/*.py"] := by
  rfl

/-- Claim C3: the count returned by `countPyFiles` never depends on the
contents (or readability) of any directory whose base name is in the
exclusion set: two roots whose listings agree outside excluded directories
produce the same count, whatever the excluded directories contain.  The
root's own name plays no role. -/
theorem claim3_excluded_never_descended {skip : List String} {nm nm' : String} {r : Bool}
    {ch ch' : List FSEntry} (h : SameOutsideExcludedL skip ch ch') :
    countPyFiles (.dir nm r ch) skip = countPyFiles (.dir nm' r ch') skip := by
  simp only [countPyFiles]
  rw [countEntries_congr h]

/-- Witness for C3: a folder with five top-level `.py` files and an excluded
`.venv` subdirectory holding three more counts exactly like the folder whose
`.venv` is empty, and the count is `5`. -/
theorem claim3_excluded_never_descended_witness :
    countPyFiles (.dir "proj" true
        [.file "a.py", .file "b.py", .file "c.py", .file "d.py", .file "e.py",
         .dir ".venv" true [.file "x.py", .file "y.py", .file "z.py"]]) [".venv"] =
      countPyFiles (.dir "proj" true
        [.file "a.py", .file "b.py", .file "c.py", .file "d.py", .file "e.py",
         .dir ".venv" true []]) [".venv"] ∧
    countPyFiles (.dir "proj" true
        [.file "a.py", .file "b.py", .file "c.py", .file "d.py", .file "e.py",
         .dir ".venv" true [.file "x.py", .file "y.py", .file "z.py"]]) [".venv"] = 5 := by
  constructor
  · exact claim3_excluded_never_descended
      (.cons (.file _) (.cons (.file _) (.cons (.file _) (.cons (.file _) (.cons (.file _)
        (.cons (.dirSkip ".venv" true true _ _ (by decide)) .nil))))))
  · simp [countPyFiles, countEntries, countEntry]
    decide

/-- Claim C4: round-trip restore.  For every configuration, folder, time and
state in which the folder has no snapshot yet, one classification pass
followed by the deactivation restore leaves the folder's
`python.analysis.include` / `python.analysis.exclude` exactly as they were
before the pass — an unset value is restored to unset, not to an empty list,
because the whole `Option` value is written back — and the folder's snapshot
entry is deleted. -/
theorem claim4_roundtrip (cfg : Config) (folder : Folder) (now : Int) (st : St)
    (hfresh : lookupPrev st folder.key = none) :
    (deactivate [folder] (applyForFolder cfg folder now .noFail st).1).pycfg folder.key =
        st.pycfg folder.key ∧
      lookupPrev (deactivate [folder] (applyForFolder cfg folder now .noFail st).1)
        folder.key = none := by
  by_cases he : cfg.enable = true
  · cases hset : jsToNameSet cfg.excludeDirs with
    | error e =>
      cases e
      rw [applyForFolder_coercionSet cfg folder now .noFail st he hset]
      exact restore_single_none folder st hfresh
    | ok skipNames =>
      cases hdes : computeDesired cfg (countPyFiles folder.tree skipNames) with
      | error e =>
        cases e
        rw [applyForFolder_coercionDesired cfg folder now .noFail st he hset hdes]
        exact restore_single_none folder st hfresh
      | ok t =>
        obtain ⟨di, de, act⟩ := t
        rw [applyForFolder_main_noFail cfg folder now st he hset hdes]
        by_cases hch : (includeChangedB (st.pycfg folder.key).incl di ||
            excludeChangedB (st.pycfg folder.key).excl de) = true
        · have hsnap := reconcile_fresh_snapshot folder di de .noFail st hfresh hch (by decide)
          have hres := restore_single_some folder
            (notify folder act (countPyFiles folder.tree skipNames) cfg.maxFiles
              cfg.notificationMode
              ⟨cfg.showEnableToast, cfg.showDisableToast, cfg.toastSuppressForMinutes⟩ now
              (reconcile folder di de .noFail st).1)
            (by rw [notify_lookupPrev]; exact hsnap)
          refine ⟨?_, hres.2⟩
          rw [hres.1]
        · rw [Bool.not_eq_true, Bool.or_eq_false_iff] at hch
          obtain ⟨hic, hec⟩ := hch
          rw [reconcile_noop folder di de .noFail st hic hec]
          have hres := restore_single_none folder
            (notify folder act (countPyFiles folder.tree skipNames) cfg.maxFiles
              cfg.notificationMode
              ⟨cfg.showEnableToast, cfg.showDisableToast, cfg.toastSuppressForMinutes⟩ now st)
            (by rw [notify_lookupPrev]; exact hfresh)
          refine ⟨?_, hres.2⟩
          rw [hres.1, notify_pycfg]
  · rw [Bool.not_eq_true] at he
    rw [applyForFolder_disabled cfg folder now .noFail st he]
    exact restore_single_none folder st hfresh

/-- Witness for C4: in a fresh session a folder with one `.py` file and a
default-style configuration is classified, written, and then restored: its
settings return to unset and no snapshot entry remains. -/
theorem claim4_roundtrip_witness :
    (deactivate [⟨"file:///w/a", "a", .dir "a" true [.file "m.py"]⟩]
        (applyForFolder
          ⟨true, 200, .arr [.str "./"], .arr [.str ".venv"], "toast", true, true, 5⟩
          ⟨"file:///w/a", "a", .dir "a" true [.file "m.py"]⟩ 1000000000 .noFail
          emptySt).1).pycfg "file:///w/a" =
      emptySt.pycfg "file:///w/a" ∧
    lookupPrev
      (deactivate [⟨"file:///w/a", "a", .dir "a" true [.file "m.py"]⟩]
        (applyForFolder
          ⟨true, 200, .arr [.str "./"], .arr [.str ".venv"], "toast", true, true, 5⟩
          ⟨"file:///w/a", "a", .dir "a" true [.file "m.py"]⟩ 1000000000 .noFail
          emptySt).1) "file:///w/a" = none :=
  claim4_roundtrip
    ⟨true, 200, .arr [.str "./"], .arr [.str ".venv"], "toast", true, true, 5⟩
    ⟨"file:///w/a", "a", .dir "a" true [.file "m.py"]⟩ 1000000000 emptySt rfl

theorem applyForFolder_prev_mono (cfg : Config) (folder : Folder) (now : Int)
    (wf : WriteFail) (st : St) {k : String} {v : Snapshot}
    (h : lookupPrev st k = some v) :
    lookupPrev (applyForFolder cfg folder now wf st).1 k = some v := by
  by_cases he : cfg.enable = true
  · cases hset : jsToNameSet cfg.excludeDirs with
    | error e =>
      cases e
      rw [applyForFolder_coercionSet cfg folder now wf st he hset]
      exact h
    | ok skipNames =>
      cases hdes : computeDesired cfg (countPyFiles folder.tree skipNames) with
      | error e =>
        cases e
        rw [applyForFolder_coercionDesired cfg folder now wf st he hset hdes]
        exact h
      | ok t =>
        obtain ⟨di, de, act⟩ := t
        rw [applyForFolder_main cfg folder now wf st he hset hdes]
        cases hab : (reconcile folder di de wf st).2.abortReason with
        | some a =>
          exact reconcile_prev_mono folder di de wf st h
        | none =>
          simp only [notify_lookupPrev]
          exact reconcile_prev_mono folder di de wf st h
  · rw [Bool.not_eq_true] at he
    rw [applyForFolder_disabled cfg folder now wf st he]
    exact h

/-- Claim C5: snapshot write-once.  Once the snapshot store holds an entry for
a folder key, no later classification pass — whatever its configuration,
folder, time, or I/O failure behaviour — overwrites it: after any sequence of
passes the entry still holds its original value. -/
theorem claim5_snapshot_write_once (passes : List (Config × Folder × Int × WriteFail))
    (st : St) (k : String) (v : Snapshot) (h : lookupPrev st k = some v) :
    lookupPrev (runPasses passes st) k = some v := by
  induction passes generalizing st with
  | nil => exact h
  | cons p ps ih =>
    exact ih ((applyForFolder p.1 p.2.1 p.2.2.1 p.2.2.2 st).1)
      (applyForFolder_prev_mono p.1 p.2.1 p.2.2.1 p.2.2.2 st h)

/-- Witness for C5: a snapshot recorded for a folder survives a later pass
over that same folder unchanged. -/
theorem claim5_snapshot_write_once_witness :
    lookupPrev
      (runPasses
        [(⟨true, 200, .arr [.str "./"], .arr [], "toast", true, true, 5⟩,
          ⟨"file:///w/a", "a", .file "stub"⟩, 1000000000, .noFail)]
        { emptySt with prevMap := [("file:///w/a", ⟨some ["./keep/**/*.py"], none⟩)] })
      "file:///w/a" = some ⟨some ["./keep/**/*.py"], none⟩ :=
  claim5_snapshot_write_once _ _ _ _ rfl

theorem applyForFolder_noFail_pycfg_self (cfg : Config) (folder : Folder) (now : Int)
    (st : St) {skipNames : List String} {di de : Option (List String)} {act : Action}
    (he : cfg.enable = true)
    (hset : jsToNameSet cfg.excludeDirs = .ok skipNames)
    (hdes : computeDesired cfg (countPyFiles folder.tree skipNames) = .ok (di, de, act)) :
    (applyForFolder cfg folder now .noFail st).1.pycfg folder.key = ⟨di, de⟩ := by
  rw [applyForFolder_main_noFail cfg folder now st he hset hdes]
  simp only [notify_pycfg]
  exact reconcile_noFail_pycfg_self folder di de st

theorem applyForFolder_noop_log (cfg : Config) (folder : Folder) (now : Int)
    (st : St) {skipNames : List String} {di de : Option (List String)} {act : Action}
    (he : cfg.enable = true)
    (hset : jsToNameSet cfg.excludeDirs = .ok skipNames)
    (hdes : computeDesired cfg (countPyFiles folder.tree skipNames) = .ok (di, de, act))
    (hpy : st.pycfg folder.key = ⟨di, de⟩) :
    (applyForFolder cfg folder now .noFail st).2 = ⟨none, false, false, some act, 0⟩ := by
  rw [applyForFolder_main_noFail cfg folder now st he hset hdes]
  have hic : includeChangedB (st.pycfg folder.key).incl di = false := by
    rw [hpy]
    exact includeChangedB_eq_false.mpr rfl
  have hec : excludeChangedB (st.pycfg folder.key).excl de = false := by
    rw [hpy]
    exact excludeChangedB_eq_false.mpr rfl
  rw [reconcile_noop folder di de .noFail st hic hec]

/-- Claim C6: reconciliation idempotence.  Running the classification pass
twice in a row with the same configuration and the same folder contents makes
the second run compute `includeChanged = false` and `excludeChanged = false`
and perform zero settings writes, for every configuration, folder, pair of
times and starting state. -/
theorem claim6_reconcile_idempotent (cfg : Config) (folder : Folder) (now1 now2 : Int)
    (st : St) :
    (applyForFolder cfg folder now2 .noFail
        (applyForFolder cfg folder now1 .noFail st).1).2.includeChanged = false ∧
      (applyForFolder cfg folder now2 .noFail
        (applyForFolder cfg folder now1 .noFail st).1).2.excludeChanged = false ∧
      (applyForFolder cfg folder now2 .noFail
        (applyForFolder cfg folder now1 .noFail st).1).2.writes = 0 := by
  by_cases he : cfg.enable = true
  · cases hset : jsToNameSet cfg.excludeDirs with
    | error e =>
      cases e
      rw [applyForFolder_coercionSet cfg folder now1 .noFail st he hset,
        applyForFolder_coercionSet cfg folder now2 .noFail st he hset]
      exact ⟨rfl, rfl, rfl⟩
    | ok skipNames =>
      cases hdes : computeDesired cfg (countPyFiles folder.tree skipNames) with
      | error e =>
        cases e
        rw [applyForFolder_coercionDesired cfg folder now1 .noFail st he hset hdes,
          applyForFolder_coercionDesired cfg folder now2 .noFail st he hset hdes]
        exact ⟨rfl, rfl, rfl⟩
      | ok t =>
        obtain ⟨di, de, act⟩ := t
        rw [applyForFolder_noop_log cfg folder now2 _ he hset hdes
          (applyForFolder_noFail_pycfg_self cfg folder now1 st he hset hdes)]
        exact ⟨rfl, rfl, rfl⟩
  · rw [Bool.not_eq_true] at he
    rw [applyForFolder_disabled cfg folder now1 .noFail st he,
      applyForFolder_disabled cfg folder now2 .noFail st he]
    exact ⟨rfl, rfl, rfl⟩

/-- Claim C7: snapshot-before-write atomicity.  In a pass over a folder with
no snapshot yet that aborts because one of the two settings writes failed,
the snapshot store already holds exactly the folder's pre-change values, the
pass touched no other folder's settings or snapshot, and no notification was
shown. -/
theorem claim7_snapshot_before_write (cfg : Config) (folder : Folder) (now : Int)
    (wf : WriteFail) (st : St)
    (hfresh : lookupPrev st folder.key = none)
    (hab : (applyForFolder cfg folder now wf st).2.abortReason = some .includeWrite ∨
           (applyForFolder cfg folder now wf st).2.abortReason = some .excludeWrite) :
    lookupPrev (applyForFolder cfg folder now wf st).1 folder.key =
        some ⟨(st.pycfg folder.key).incl, (st.pycfg folder.key).excl⟩ ∧
      (∀ k, k ≠ folder.key →
        (applyForFolder cfg folder now wf st).1.pycfg k = st.pycfg k ∧
        lookupPrev (applyForFolder cfg folder now wf st).1 k = lookupPrev st k) ∧
      (applyForFolder cfg folder now wf st).1.toastLog = st.toastLog := by
  by_cases he : cfg.enable = true
  · cases hset : jsToNameSet cfg.excludeDirs with
    | error e =>
      cases e
      rw [applyForFolder_coercionSet cfg folder now wf st he hset] at hab
      simp at hab
    | ok skipNames =>
      cases hdes : computeDesired cfg (countPyFiles folder.tree skipNames) with
      | error e =>
        cases e
        rw [applyForFolder_coercionDesired cfg folder now wf st he hset hdes] at hab
        simp at hab
      | ok t =>
        obtain ⟨di, de, act⟩ := t
        rw [applyForFolder_main cfg folder now wf st he hset hdes] at hab ⊢
        cases habr : (reconcile folder di de wf st).2.abortReason with
        | none =>
          simp [habr] at hab
        | some a =>
          rw [habr] at hab
          exact ⟨reconcile_write_abort folder di de wf st hfresh hab, fun k hk =>
            ⟨reconcile_pycfg_ne folder di de wf st hk,
             reconcile_prev_ne folder di de wf st hk⟩,
            reconcile_toastLog folder di de wf st⟩
  · rw [Bool.not_eq_true] at he
    rw [applyForFolder_disabled cfg folder now wf st he] at hab
    simp at hab

/-- Witness for C7: a fresh folder whose desired include list differs from
the unset current value, with the include write failing: the pass aborts at
the include write, the snapshot holds the pre-change (unset) values, and
nothing else changed. -/
theorem claim7_snapshot_before_write_witness :
    lookupPrev (applyForFolder
        ⟨true, 200, .arr [.str "./"], .arr [], "toast", true, true, 5⟩
        ⟨"file:///w/a", "a", .file "stub"⟩ 0 .failInclude emptySt).1 "file:///w/a" =
      some ⟨(emptySt.pycfg "file:///w/a").incl, (emptySt.pycfg "file:///w/a").excl⟩ ∧
    (∀ k, k ≠ "file:///w/a" →
      (applyForFolder
        ⟨true, 200, .arr [.str "./"], .arr [], "toast", true, true, 5⟩
        ⟨"file:///w/a", "a", .file "stub"⟩ 0 .failInclude emptySt).1.pycfg k =
          emptySt.pycfg k ∧
      lookupPrev (applyForFolder
        ⟨true, 200, .arr [.str "./"], .arr [], "toast", true, true, 5⟩
        ⟨"file:///w/a", "a", .file "stub"⟩ 0 .failInclude emptySt).1 k =
          lookupPrev emptySt k) ∧
    (applyForFolder
        ⟨true, 200, .arr [.str "./"], .arr [], "toast", true, true, 5⟩
        ⟨"file:///w/a", "a", .file "stub"⟩ 0 .failInclude emptySt).1.toastLog =
      emptySt.toastLog :=
  claim7_snapshot_before_write _ _ 0 .failInclude emptySt rfl (Or.inl rfl)

theorem notify_toast_mode_shown (folder : Folder) (a : Action) (count limit : Nat)
    (opts : ToastOpts) (now : Int) (st : St)
    (hgap : ¬ now - (lookupToast st folder.key).getD 0 <
      (max 0 opts.suppressMins) * 60 * 1000)
    (hen : opts.showEnableToast = true) (hdis : opts.showDisableToast = true) :
    ∃ msg, notify folder a count limit "toast" opts now st =
      { st with toastLog := st.toastLog ++ [msg],
                lastToastAt := (folder.key, now) :: st.lastToastAt } := by
  have hm1 : (("toast" : String) == "none") = false := by decide
  have hm2 : (("toast" : String) == "statusbar") = false := by decide
  have hm3 : (("toast" : String) == "problems") = false := by decide
  cases a
  · refine ⟨"Pylance enabled for " ++ folder.name ++
      ". Scope: include Python in configured directories. Analysing " ++ toString count ++
      " files (limit " ++ toString limit ++ ").", ?_⟩
    simp [notify, hm1, hm2, hm3, hgap, hen]
  · refine ⟨"Pylance disabled for " ++ folder.name ++ ". " ++ toString count ++
      " Python files exceed the " ++ toString limit ++ " limit.", ?_⟩
    simp [notify, hm1, hm2, hm3, hgap, hdis]

theorem notify_toast_mode_suppressed (folder : Folder) (a : Action) (count limit : Nat)
    (opts : ToastOpts) (now : Int) (st : St)
    (hgap : now - (lookupToast st folder.key).getD 0 <
      (max 0 opts.suppressMins) * 60 * 1000) :
    notify folder a count limit "toast" opts now st = st := by
  have hm1 : (("toast" : String) == "none") = false := by decide
  have hm2 : (("toast" : String) == "statusbar") = false := by decide
  have hm3 : (("toast" : String) == "problems") = false := by decide
  simp [notify, hm1, hm2, hm3, hgap]

/-- Claim C8: toast throttling.  With `toastSuppressForMinutes = 5` and both
toast toggles on, two classifications of the same folder with the same action
less than five minutes apart show exactly one toast (the second call returns
the state unchanged); a third classification once five minutes have passed
since the shown toast shows a second toast; and the suppression is tracked
per folder key: a different folder is not suppressed by the first folder's
toast.  (Times are epoch milliseconds, so the first time is at least one
window after the epoch, as any real clock value is.) -/
theorem claim8_toast_throttle (folder folder2 : Folder) (a : Action) (count limit : Nat)
    (t1 t2 t3 : Int) (st : St)
    (h0 : lookupToast st folder.key = none)
    (h02 : lookupToast st folder2.key = none)
    (hk : folder2.key ≠ folder.key)
    (h1 : 300000 ≤ t1)
    (h2 : t2 - t1 < 300000)
    (h2b : 300000 ≤ t2)
    (h3 : 300000 ≤ t3 - t1) :
    (notify folder a count limit "toast" ⟨true, true, 5⟩ t1 st).toastLog.length =
        st.toastLog.length + 1 ∧
      notify folder a count limit "toast" ⟨true, true, 5⟩ t2
          (notify folder a count limit "toast" ⟨true, true, 5⟩ t1 st) =
        notify folder a count limit "toast" ⟨true, true, 5⟩ t1 st ∧
      (notify folder a count limit "toast" ⟨true, true, 5⟩ t3
          (notify folder a count limit "toast" ⟨true, true, 5⟩ t2
            (notify folder a count limit "toast" ⟨true, true, 5⟩ t1 st))).toastLog.length =
        st.toastLog.length + 2 ∧
      (notify folder2 a count limit "toast" ⟨true, true, 5⟩ t2
          (notify folder a count limit "toast" ⟨true, true, 5⟩ t1 st)).toastLog.length =
        st.toastLog.length + 2 := by
  have hmax : ((max 0 (5 : Int)) * 60 * 1000) = 300000 := by decide
  have hgap1 : ¬ t1 - (lookupToast st folder.key).getD 0 <
      (max 0 (5 : Int)) * 60 * 1000 := by
    rw [h0, hmax]
    simp only [Option.getD_none, sub_zero, not_lt]
    exact h1
  obtain ⟨m1, hN1⟩ :=
    notify_toast_mode_shown folder a count limit ⟨true, true, 5⟩ t1 st hgap1 rfl rfl
  have hlook1 : lookupToast
      (notify folder a count limit "toast" ⟨true, true, 5⟩ t1 st) folder.key = some t1 := by
    rw [hN1]
    simp [lookupToast, List.find?]
  have hsup : notify folder a count limit "toast" ⟨true, true, 5⟩ t2
      (notify folder a count limit "toast" ⟨true, true, 5⟩ t1 st) =
      notify folder a count limit "toast" ⟨true, true, 5⟩ t1 st := by
    refine notify_toast_mode_suppressed folder a count limit ⟨true, true, 5⟩ t2 _ ?_
    rw [hlook1, hmax]
    simpa using h2
  have hgap3 : ¬ t3 - (lookupToast
      (notify folder a count limit "toast" ⟨true, true, 5⟩ t1 st) folder.key).getD 0 <
      (max 0 (5 : Int)) * 60 * 1000 := by
    rw [hlook1, hmax]
    simp only [Option.getD_some, not_lt]
    exact h3
  obtain ⟨m3, hN3⟩ := notify_toast_mode_shown folder a count limit ⟨true, true, 5⟩ t3
    (notify folder a count limit "toast" ⟨true, true, 5⟩ t1 st) hgap3 rfl rfl
  have hfind2 : st.lastToastAt.find? (fun p => p.1 == folder2.key) = none := by
    unfold lookupToast at h02
    exact Option.map_eq_none'.mp h02
  have hlook2 : lookupToast
      (notify folder a count limit "toast" ⟨true, true, 5⟩ t1 st) folder2.key = none := by
    rw [hN1]
    simp [lookupToast, List.find?, beq_eq_false_iff_ne.mpr (Ne.symm hk), hfind2]
  have hgap2 : ¬ t2 - (lookupToast
      (notify folder a count limit "toast" ⟨true, true, 5⟩ t1 st) folder2.key).getD 0 <
      (max 0 (5 : Int)) * 60 * 1000 := by
    rw [hlook2, hmax]
    simp only [Option.getD_none, sub_zero, not_lt]
    exact h2b
  obtain ⟨m2, hN2⟩ := notify_toast_mode_shown folder2 a count limit ⟨true, true, 5⟩ t2
    (notify folder a count limit "toast" ⟨true, true, 5⟩ t1 st) hgap2 rfl rfl
  refine ⟨?_, hsup, ?_, ?_⟩
  · rw [hN1]
    simp
  · rw [hsup, hN3, hN1]
    simp
  · rw [hN2, hN1]
    simp

/-- Witness for C8: toasts at `t1 = 300000` and `t3 = 600000` epoch
milliseconds with a suppressed call at `t2 = 300001`, and a second folder not
suppressed at `t2`. -/
theorem claim8_toast_throttle_witness :
    (notify ⟨"file:///w/a", "a", .file "s"⟩ .enable 1 2 "toast" ⟨true, true, 5⟩ 300000
        emptySt).toastLog.length = emptySt.toastLog.length + 1 ∧
      notify ⟨"file:///w/a", "a", .file "s"⟩ .enable 1 2 "toast" ⟨true, true, 5⟩ 300001
          (notify ⟨"file:///w/a", "a", .file "s"⟩ .enable 1 2 "toast" ⟨true, true, 5⟩
            300000 emptySt) =
        notify ⟨"file:///w/a", "a", .file "s"⟩ .enable 1 2 "toast" ⟨true, true, 5⟩ 300000
          emptySt ∧
      (notify ⟨"file:///w/a", "a", .file "s"⟩ .enable 1 2 "toast" ⟨true, true, 5⟩ 600000
          (notify ⟨"file:///w/a", "a", .file "s"⟩ .enable 1 2 "toast" ⟨true, true, 5⟩
            300001
            (notify ⟨"file:///w/a", "a", .file "s"⟩ .enable 1 2 "toast" ⟨true, true, 5⟩
              300000 emptySt))).toastLog.length = emptySt.toastLog.length + 2 ∧
      (notify ⟨"file:///w/b", "b", .file "s"⟩ .enable 1 2 "toast" ⟨true, true, 5⟩ 300001
          (notify ⟨"file:///w/a", "a", .file "s"⟩ .enable 1 2 "toast" ⟨true, true, 5⟩
            300000 emptySt)).toastLog.length = emptySt.toastLog.length + 2 :=
  claim8_toast_throttle ⟨"file:///w/a", "a", .file "s"⟩ ⟨"file:///w/b", "b", .file "s"⟩
    .enable 1 2 300000 300001 600000 emptySt rfl rfl (by decide) (by decide) (by decide)
    (by decide) (by decide)

/-- Claim C9 counterexample: with `excludeDirs` set to the number `1` (a
truthy non-list value), the classification pass aborts with a coercion error
— `new Set(1)` throws a `TypeError` caught by the pass's `try`/`catch` —
instead of coercing the value to an empty list and completing normally.  The
folder's state is left untouched. -/
theorem claim9_counterexample :
    (applyForFolder ⟨true, 200, .arr [], .num 1, "toast", true, true, 5⟩
        ⟨"file:///w/a", "a", .file "s"⟩ 0 .noFail emptySt).2.abortReason =
      some .coercion ∧
    (applyForFolder ⟨true, 200, .arr [], .num 1, "toast", true, true, 5⟩
        ⟨"file:///w/a", "a", .file "s"⟩ 0 .noFail emptySt).1 = emptySt :=
  ⟨rfl, rfl⟩

/-- Claim C9 amended: a nullish (`null`/`undefined`) `excludeDirs` together
with a falsy `includeDirs` is coerced to an empty list — the pass behaves
exactly as with empty-list configuration and completes normally; a truthy
non-iterable value (such as a number) instead aborts the pass for that folder,
leaving its state unchanged. -/
theorem claim9_falsy_coerced (cfg : Config) (folder : Folder) (now : Int) (st : St)
    (hexc : cfg.excludeDirs = .null ∨ cfg.excludeDirs = .undef)
    (hinc : cfg.includeDirs.truthy = false) :
    (applyForFolder cfg folder now .noFail st).2.abortReason = none ∧
      applyForFolder cfg folder now .noFail st =
        applyForFolder { cfg with includeDirs := .arr [], excludeDirs := .arr [] } folder
          now .noFail st := by
  have hset : jsToNameSet cfg.excludeDirs = .ok [] := by
    rcases hexc with h | h <;> rw [h] <;> rfl
  have hset' : jsToNameSet (JsVal.arr []) = .ok ([] : List String) := rfl
  have hti : toIncludeGlobs cfg.includeDirs = .ok ["./**/*.py"] := by
    simp [toIncludeGlobs, jsIterEntries, hinc]
  have hte : toExcludeGlobs cfg.excludeDirs = .ok [] := by
    rcases hexc with h | h <;> rw [h] <;> rfl
  by_cases he : cfg.enable = true
  · cases hact : classifyAction (countPyFiles folder.tree []) cfg.maxFiles with
    | disable =>
      have hdes : computeDesired cfg (countPyFiles folder.tree []) =
          .ok (none, some ["**"], .disable) := by
        simp [computeDesired, hact]
      have hdes' : computeDesired { cfg with includeDirs := .arr [], excludeDirs := .arr [] }
          (countPyFiles folder.tree []) = .ok (none, some ["**"], .disable) := by
        simp [computeDesired, hact]
      constructor
      · rw [applyForFolder_main_noFail cfg folder now st he hset hdes]
        simp [reconcile_noFail_abortReason]
      · rw [applyForFolder_main_noFail cfg folder now st he hset hdes,
          applyForFolder_main_noFail
            { cfg with includeDirs := .arr [], excludeDirs := .arr [] }
            folder now st he hset' hdes']
    | enable =>
      have hdes : computeDesired cfg (countPyFiles folder.tree []) =
          .ok (some ["./**/*.py"], some [], .enable) := by
        simp [computeDesired, hact, hti, hte]
      have hdes' : computeDesired { cfg with includeDirs := .arr [], excludeDirs := .arr [] }
          (countPyFiles folder.tree []) = .ok (some ["./**/*.py"], some [], .enable) := by
        simp only [computeDesired, hact]
        rfl
      constructor
      · rw [applyForFolder_main_noFail cfg folder now st he hset hdes]
        simp [reconcile_noFail_abortReason]
      · rw [applyForFolder_main_noFail cfg folder now st he hset hdes,
          applyForFolder_main_noFail
            { cfg with includeDirs := .arr [], excludeDirs := .arr [] }
            folder now st he hset' hdes']
  · rw [Bool.not_eq_true] at he
    rw [applyForFolder_disabled cfg folder now .noFail st he,
      applyForFolder_disabled { cfg with includeDirs := .arr [], excludeDirs := .arr [] }
        folder now .noFail st he]
    exact ⟨rfl, rfl⟩

/-- Witness for C9's amended statement: `includeDirs = 0` and
`excludeDirs = null` run exactly like empty lists and complete. -/
theorem claim9_falsy_coerced_witness :
    (applyForFolder ⟨true, 200, .num 0, .null, "toast", true, true, 5⟩
        ⟨"file:///w/a", "a", .file "s"⟩ 0 .noFail emptySt).2.abortReason = none ∧
      applyForFolder ⟨true, 200, .num 0, .null, "toast", true, true, 5⟩
          ⟨"file:///w/a", "a", .file "s"⟩ 0 .noFail emptySt =
        applyForFolder ⟨true, 200, .arr [], .arr [], "toast", true, true, 5⟩
          ⟨"file:///w/a", "a", .file "s"⟩ 0 .noFail emptySt :=
  claim9_falsy_coerced ⟨true, 200, .num 0, .null, "toast", true, true, 5⟩
    ⟨"file:///w/a", "a", .file "s"⟩ 0 emptySt (Or.inl rfl) rfl

/-- Claim C10: frame property of the disabled pass.  When `enable` is false
the classification pass returns immediately: the whole state — the folder's
`python.analysis` settings, the snapshot store, the toast-throttle map, the
toast log and the status-bar/diagnostic surfaces — is unchanged, no
notification is shown, and the pass log records no action, no change flags
and zero writes. -/
theorem claim10_disabled_noop (cfg : Config) (folder : Folder) (now : Int)
    (wf : WriteFail) (st : St) (h : cfg.enable = false) :
    applyForFolder cfg folder now wf st = (st, ⟨none, false, false, none, 0⟩) :=
  applyForFolder_disabled cfg folder now wf st h

/-- Witness for C10: a disabled configuration leaves a fresh session
untouched. -/
theorem claim10_disabled_noop_witness :
    applyForFolder ⟨false, 200, .arr [.str "./"], .arr [.str ".venv"], "toast", true, true, 5⟩
        ⟨"file:///w/a", "a", .dir "a" true [.file "m.py"]⟩ 0 .noFail emptySt =
      (emptySt, ⟨none, false, false, none, 0⟩) :=
  claim10_disabled_noop _ _ 0 .noFail emptySt rfl

end PFS
